import Mathlib

set_option linter.unusedVariables false

/-! Shallow embedding of the study-session state machine and the
gamification (XP/level) engine of the AI Study Buddy frontend
controller. JS numbers on the paths modelled here are non-negative
integers and are embedded as `Nat`; `Date.now()` timestamps are
milliseconds passed explicitly to each operation; UI side effects
(XP-gain toasts, level-up notifications, the session-complete banner)
are modelled as an explicit event log, and the single piece of DOM
state the engine reads back (the pause/resume button label inspected
by `pauseStudySession`) is carried in the world state as the boolean
`pauseBtnShowsPause`. `Math.round` applied to the float quotient
`(correct / studied) * 100` is embedded as exact round-half-up on the
rational `100 * correct / studied`. -/

/-- A flashcard. In the source, `difficulty` is a free-form string used
to key into `XP_VALUES`, with unknown difficulties falling back to a
5-XP default. -/
structure Card where
  question : String
  answer : String
  subject : String
  difficulty : String
deriving DecidableEq

/-- Placeholder for an out-of-range `cards[currentCard]` access (the JS
code would read `undefined`; the claims only touch in-range reads). -/
def defaultCard : Card := { question := "", answer := "", subject := "", difficulty := "" }

/-- The `XP_VALUES` lookup table: easy 3, medium 5, hard 8. -/
def XP_VALUES (difficulty : String) : Option Nat :=
  if difficulty = "easy" then some 3
  else if difficulty = "medium" then some 5
  else if difficulty = "hard" then some 8
  else none

/-- The source expression `XP_VALUES[card.difficulty] || 5`. -/
def xpValue (difficulty : String) : Nat := (XP_VALUES difficulty).getD 5

/-- A built-in sample question before the subject tag is attached. -/
structure SampleQ where
  question : String
  answer : String
  difficulty : String
deriving DecidableEq

/-- The `sampleQuestions` object. JS object keys of this shape enumerate
in insertion order, so the object is embedded as an association list in
the source's literal order: math, english, spanish, german, science,
history. -/
def sampleQuestions : List (String × List SampleQ) :=
  [ ("math",
      [ { question := "What is the Pythagorean theorem?",
          answer := "a² + b² = c², where c is the hypotenuse of a right triangle.",
          difficulty := "medium" },
        { question := "What is the quadratic formula?",
          answer := "x = [-b ± √(b² - 4ac)] / (2a)",
          difficulty := "hard" },
        { question := "What is 2 + 2?", answer := "4", difficulty := "easy" } ]),
    ("english",
      [ { question := "What is a metaphor?",
          answer := "A figure of speech that describes an object or action in a way that isn\x27t literally true.",
          difficulty := "medium" },
        { question := "What are the three main types of irony?",
          answer := "Verbal, situational, and dramatic irony.",
          difficulty := "hard" },
        { question := "What is a noun?",
          answer := "A word that names a person, place, thing, or idea.",
          difficulty := "easy" } ]),
    ("spanish",
      [ { question := "How do you say \x27hello\x27 in Spanish?", answer := "Hola", difficulty := "easy" },
        { question := "What is the difference between \x27ser\x27 and \x27estar\x27?",
          answer := "Both mean \x27to be\x27, but \x27ser\x27 is for permanent traits and \x27estar\x27 for temporary states.",
          difficulty := "hard" },
        { question := "How do you say \x27thank you\x27 in Spanish?", answer := "Gracias", difficulty := "easy" } ]),
    ("german",
      [ { question := "How do you say \x27thank you\x27 in German?", answer := "Danke", difficulty := "easy" },
        { question := "What are the three German articles?",
          answer := "Der (masculine), die (feminine), das (neuter)",
          difficulty := "medium" },
        { question := "How do you say \x27good morning\x27 in German?", answer := "Guten Morgen", difficulty := "easy" } ]),
    ("science",
      [ { question := "What is photosynthesis?",
          answer := "The process by which plants convert light energy into chemical energy.",
          difficulty := "medium" },
        { question := "What are the three states of matter?",
          answer := "Solid, liquid, and gas.",
          difficulty := "easy" },
        { question := "What is DNA?",
          answer := "Deoxyribonucleic acid - the molecule that carries genetic information.",
          difficulty := "hard" } ]),
    ("history",
      [ { question := "When did World War II end?", answer := "1945", difficulty := "easy" },
        { question := "Who was the first president of the United States?",
          answer := "George Washington",
          difficulty := "easy" },
        { question := "What was the Renaissance?",
          answer := "A period of cultural rebirth in Europe from the 14th to 17th centuries.",
          difficulty := "medium" } ]) ]

/-- The fallback deck built in `startStudySession`:
`Object.keys(sampleQuestions).forEach(subject => studyCards.push(...sampleQuestions[subject].map(q => ({...q, subject}))))`. -/
def sampleFallbackDeck : List Card :=
  (sampleQuestions.map fun p =>
    p.2.map fun q =>
      { question := q.question, answer := q.answer, subject := p.1, difficulty := q.difficulty }).flatten

/-- Spec-side description of one fallback category: the sample entries of
the named category, in their stored order, tagged with the subject.
Used only to compare the code's flattening against the spec's fixed
category order. -/
def categoryCards (subject : String) : List Card :=
  ((sampleQuestions.lookup subject).getD []).map fun q =>
    { question := q.question, answer := q.answer, subject := subject, difficulty := q.difficulty }

/-- Spec-side fallback deck: the built-in categories flattened in the
fixed order math, english, spanish, german, science, history, each
category keeping its internal entry order. -/
def fallbackDeckSpec : List Card :=
  categoryCards "math" ++ categoryCards "english" ++ categoryCards "spanish" ++
    categoryCards "german" ++ categoryCards "science" ++ categoryCards "history"

/-- The session summary reported by `endStudySession` (the values shown
in the completion notification). -/
structure EndSummary where
  durationSeconds : Nat
  cardsStudied : Nat
  accuracyPercent : Nat
  sessionXP : Nat
deriving DecidableEq

/-- Observable UI effects of the engine, in emission order. -/
inductive Event where
  | xpGain (amount : Nat) (reason : String)
  | levelUp (newLevel : Nat)
  | sessionEnded (summary : EndSummary)
deriving DecidableEq

/-- The `userStats` global (UserProgress). -/
structure UserStats where
  level : Nat
  xp : Nat
  streak : Nat
  totalCards : Nat
deriving DecidableEq

/-- The `studySession` global. `timer` (an interval handle or null) is
modelled by the boolean `timerRunning`; the write-only `sessionTime`
field is omitted. -/
structure StudySession where
  active : Bool
  startTime : Option Nat
  currentCard : Nat
  cardsStudied : Nat
  correctAnswers : Nat
  cards : List Card
  timerRunning : Bool
deriving DecidableEq

/-- The module-level mutable state touched by the session/gamification
functions. -/
structure World where
  session : StudySession
  stats : UserStats
  savedCards : List Card
  generatedCards : List Card
  pauseBtnShowsPause : Bool
deriving DecidableEq

/-- `awardXP(amount, reason)`: adds the amount, refreshes `totalCards`,
recomputes the level as `Math.floor(xp / 100) + 1`, stores the new level
and emits a level-up notification only when it exceeds the old one, then
emits the XP-gain toast. -/
def awardXP (amount : Nat) (reason : String) (totalCards : Nat) (stats : UserStats) :
    UserStats × List Event :=
  let xp := stats.xp + amount
  let newLevel := xp / 100 + 1
  if stats.level < newLevel then
    ({ level := newLevel, xp := xp, streak := stats.streak, totalCards := totalCards },
      [Event.levelUp newLevel, Event.xpGain amount reason])
  else
    ({ stats with xp := xp, totalCards := totalCards },
      [Event.xpGain amount reason])

/-- `awardXP` acting on the world state: `totalCards` is recomputed from
`savedCards.length + generatedCards.length` as in the source. -/
def awardXPW (amount : Nat) (reason : String) (w : World) : World × List Event :=
  let r := awardXP amount reason (w.savedCards.length + w.generatedCards.length) w.stats
  ({ w with stats := r.1 }, r.2)

/-- The reset value `endStudySession` stores back into `studySession`
(and, up to the omitted write-only field, the initial global value). -/
def idleSession : StudySession :=
  { active := false, startTime := none, currentCard := 0, cardsStudied := 0,
    correctAnswers := 0, cards := [], timerRunning := false }

/-- The session state reached after a successful start once `k` cards
have been answered, `c` of them correctly. -/
def midSession (deck : List Card) (t0 k c : Nat) : StudySession :=
  { active := true, startTime := some t0, currentCard := k, cardsStudied := k,
    correctAnswers := c, cards := deck, timerRunning := true }

/-- The freshly initialized session of `startStudySession`. -/
def startedSession (deck : List Card) (t0 : Nat) : StudySession := midSession deck t0 0 0

/-- Deck assembly at the top of `startStudySession`: saved cards followed
by generated cards, replaced by the sample fallback when both are
empty. -/
def assembleDeck (savedCards generatedCards : List Card) : List Card :=
  let studyCards := savedCards ++ generatedCards
  if studyCards.isEmpty then sampleFallbackDeck else studyCards

/-- Outcome of a start attempt: `emptyDeck` models the
`No flashcards available for study!` error notification and early
return. -/
inductive StartResult where
  | ok
  | emptyDeck
deriving DecidableEq

/-- `startStudySession` from the empty-deck guard onward: reject an empty
deck, otherwise install the fresh session and start the interval
timer. -/
def startSessionWithDeck (studyCards : List Card) (now : Nat) (w : World) :
    World × StartResult :=
  if studyCards.isEmpty then (w, StartResult.emptyDeck)
  else ({ w with session := startedSession studyCards now }, StartResult.ok)

/-- `startStudySession()` at time `now`. -/
def startStudySession (now : Nat) (w : World) : World × StartResult :=
  startSessionWithDeck (assembleDeck w.savedCards w.generatedCards) now w

/-- `updateSessionTimer` at time `now`: the value written to the on-screen
timer, or `none` when the guard
`!timerElement || !studySession.active || !studySession.startTime`
returns early (a stored timestamp of 0 is falsy in JS, hence the
`t ≠ 0` side of the guard). -/
def updateSessionTimer (now : Nat) (w : World) : Option Nat :=
  match w.session.startTime with
  | none => none
  | some t => if w.session.active = true ∧ t ≠ 0 then some ((now - t) / 1000) else none

/-- `pauseStudySession()`: clears the interval, then branches on the
button label — a button showing Pause flips to Resume (pausing), a
button showing Resume restarts the interval and flips back (resuming).
No other session field is touched. -/
def pauseStudySession (w : World) : World :=
  let s := { w.session with timerRunning := false }
  if w.pauseBtnShowsPause then
    { w with session := s, pauseBtnShowsPause := false }
  else
    { w with session := { s with timerRunning := true }, pauseBtnShowsPause := true }

/-- `endStudySession()` at time `now`: stops the interval, computes
`sessionDuration = Math.floor((now - startTime) / 1000)` (a null
`startTime` coerces to 0), the accuracy percentage, and the bonus XP;
awards the bonus in a single `awardXP` call when positive; emits the
completion summary; resets the session to idle and the pause button
label to Pause. -/
def endStudySession (now : Nat) (w : World) : World × EndSummary × List Event :=
  let s := w.session
  let sessionDuration := (now - s.startTime.getD 0) / 1000
  let accuracy :=
    if 0 < s.cardsStudied then
      (2 * (100 * s.correctAnswers) + s.cardsStudied) / (2 * s.cardsStudied)
    else 0
  let xp1 := s.cardsStudied * 2
  let xp2 := if 80 ≤ accuracy then xp1 + 10 else xp1
  let sessionXP := if 600 ≤ sessionDuration then xp2 + 5 else xp2
  let r := if 0 < sessionXP then awardXPW sessionXP "Study session completed!" w else (w, [])
  let summary : EndSummary :=
    { durationSeconds := sessionDuration, cardsStudied := s.cardsStudied,
      accuracyPercent := accuracy, sessionXP := sessionXP }
  ({ r.1 with session := idleSession, pauseBtnShowsPause := true },
    summary, r.2 ++ [Event.sessionEnded summary])

/-- Lines 775–784 of `answerCard(isCorrect)`: bump `cardsStudied`; on a
correct answer bump `correctAnswers` and award the current card's
difficulty-derived XP with reason Correct answer!; then advance
`currentCard`. -/
def answerCardStep (isCorrect : Bool) (w : World) : World × List Event :=
  let s1 := { w.session with cardsStudied := w.session.cardsStudied + 1 }
  if isCorrect then
    let s2 := { s1 with correctAnswers := s1.correctAnswers + 1 }
    let card := s2.cards.getD s2.currentCard defaultCard
    let r := awardXPW (xpValue card.difficulty) "Correct answer!" { w with session := s2 }
    ({ r.1 with session := { r.1.session with currentCard := r.1.session.currentCard + 1 } }, r.2)
  else
    ({ w with session := { s1 with currentCard := s1.currentCard + 1 } }, [])

/-- `answerCard(isCorrect)` at time `now`, including the automatic
`setTimeout(endStudySession, 1000)` dispatched when the advanced
position reaches the deck length. -/
def answerCard (isCorrect : Bool) (now : Nat) (w : World) : World × List Event :=
  let r := answerCardStep isCorrect w
  if r.1.session.cards.length ≤ r.1.session.currentCard then
    let e := endStudySession (now + 1000) r.1
    (e.1, r.2 ++ e.2.2)
  else
    (r.1, r.2)

/-- A sequence of `answerCard` calls, each tagged with its wall-clock
time, with the emitted events concatenated in order. -/
def runAnswers : List (Bool × Nat) → World → World × List Event
  | [], w => (w, [])
  | (b, t) :: rest, w =>
    let r := answerCard b t w
    let r2 := runAnswers rest r.1
    (r2.1, r.2 ++ r2.2)

/-- The XP-award calls recorded in an event log. -/
def xpGains (events : List Event) : List (Nat × String) :=
  events.filterMap fun e =>
    match e with
    | Event.xpGain a r => some (a, r)
    | _ => none

/-- The level-up notifications recorded in an event log. -/
def levelUps (events : List Event) : List Nat :=
  events.filterMap fun e =>
    match e with
    | Event.levelUp n => some n
    | _ => none

/-- The session-completion summaries recorded in an event log. -/
def summaries (events : List Event) : List EndSummary :=
  events.filterMap fun e =>
    match e with
    | Event.sessionEnded s => some s
    | _ => none

/-- Spec-side rounding: `roundHalfUp num den` is `num / den` rounded to
the nearest integer, halves up — the value of `Math.round` on the exact
quotient. -/
def roundHalfUp (num den : Nat) : Nat := (2 * num + den) / (2 * den)

/-- The UserProgress invariant: the stored level is the pure derivation
`floor(experience / 100) + 1`. -/
def levelInvariant (st : UserStats) : Prop := st.level = st.xp / 100 + 1

/-! ### Concrete states used for witnesses and counterexamples -/

/-- An easy saved card used by the concrete scenarios. -/
def cardA : Card :=
  { question := "What is 2 + 2?", answer := "4", subject := "math", difficulty := "easy" }

/-- A medium card used by the concrete scenarios. -/
def cardB : Card :=
  { question := "What is a metaphor?",
    answer := "A figure of speech that describes an object or action in a way that isn\x27t literally true.",
    subject := "english", difficulty := "medium" }

/-- A hard card used by the concrete scenarios. -/
def cardC : Card :=
  { question := "What is DNA?",
    answer := "Deoxyribonucleic acid - the molecule that carries genetic information.",
    subject := "science", difficulty := "hard" }

/-- Fresh user stats. -/
def baseStats : UserStats := { level := 1, xp := 0, streak := 0, totalCards := 0 }

/-- The world before any session: idle session, fresh stats, no cards,
pause button showing Pause. -/
def worldIdle : World :=
  { session := idleSession, stats := baseStats, savedCards := [], generatedCards := [],
    pauseBtnShowsPause := true }

/-- A session over the single saved card `cardA`, started at
`Date.now() = 1000000`. -/
def worldOneCard : World :=
  (startStudySession 1000000 { worldIdle with savedCards := [cardA] }).1

/-- `worldOneCard` after `pauseStudySession` (clicked at 1010000, when the
on-screen timer last showed 10 seconds). -/
def worldOneCardPaused : World := pauseStudySession worldOneCard

/-- `worldOneCardPaused` after `pauseStudySession` again, i.e. resumed at
1100000. -/
def worldOneCardResumed : World := pauseStudySession worldOneCardPaused

/-- A three-card session started at 1000000, for the C3 witness. -/
def worldThreeCards : World :=
  { worldIdle with
    savedCards := [cardA, cardB, cardC],
    session := startedSession [cardA, cardB, cardC] 1000000 }

/-- A session state with 4 cards answered, 3 correctly, started at
1000000. -/
def sessionFourAnswered : StudySession :=
  { active := true, startTime := some 1000000, currentCard := 4, cardsStudied := 4,
    correctAnswers := 3, cards := [], timerRunning := true }

/-- A world whose session has 4 cards answered, 3 correctly. -/
def worldFourAnswered : World := { worldIdle with session := sessionFourAnswered }

/-- A session state with 5 cards answered, 4 correctly, started at
1000000 (so that ending at 1700000 gives a 700-second duration). -/
def sessionFiveAnswered : StudySession :=
  { active := true, startTime := some 1000000, currentCard := 5, cardsStudied := 5,
    correctAnswers := 4, cards := [], timerRunning := true }

/-- A world whose session has 5 cards answered, 4 correctly. -/
def worldFiveAnswered : World := { worldIdle with session := sessionFiveAnswered }

/-! ### Basic lemmas about the XP engine -/

theorem awardXPW_session (a : Nat) (r : String) (w : World) :
    (awardXPW a r w).1.session = w.session := rfl

theorem awardXPW_pauseBtn (a : Nat) (r : String) (w : World) :
    (awardXPW a r w).1.pauseBtnShowsPause = w.pauseBtnShowsPause := rfl

theorem xpGains_awardXPW (a : Nat) (r : String) (w : World) :
    xpGains (awardXPW a r w).2 = [(a, r)] := by
  simp only [awardXPW, awardXP]
  split <;> simp [xpGains]

theorem summaries_awardXPW (a : Nat) (r : String) (w : World) :
    summaries (awardXPW a r w).2 = [] := by
  simp only [awardXPW, awardXP]
  split <;> simp [summaries]

theorem levelUps_awardXP (a : Nat) (r : String) (tc : Nat) (st : UserStats) :
    levelUps (awardXP a r tc st).2 =
      if st.level < (st.xp + a) / 100 + 1 then [(st.xp + a) / 100 + 1] else [] := by
  simp only [awardXP]
  split <;> simp_all [levelUps]

theorem summaries_append (a b : List Event) :
    summaries (a ++ b) = summaries a ++ summaries b :=
  List.filterMap_append a b _

theorem xpGains_append (a b : List Event) :
    xpGains (a ++ b) = xpGains a ++ xpGains b :=
  List.filterMap_append a b _

theorem awardXP_levelInvariant (a : Nat) (r : String) (tc : Nat) (st : UserStats)
    (h : levelInvariant st) : levelInvariant (awardXP a r tc st).1 := by
  unfold levelInvariant at h ⊢
  have hmono : st.xp / 100 ≤ (st.xp + a) / 100 :=
    Nat.div_le_div_right (Nat.le_add_right _ _)
  simp only [awardXP]
  split
  · simp
  · simp_all
    omega

theorem awardXPW_levelInvariant (a : Nat) (r : String) (w : World)
    (h : levelInvariant w.stats) : levelInvariant (awardXPW a r w).1.stats :=
  awardXP_levelInvariant a r _ w.stats h

/-! ### Lemmas about the session state machine -/

theorem answerCardStep_session (b : Bool) (w : World) :
    (answerCardStep b w).1.session =
      { w.session with
        cardsStudied := w.session.cardsStudied + 1,
        correctAnswers := w.session.correctAnswers + (if b then 1 else 0),
        currentCard := w.session.currentCard + 1 } := by
  cases b <;> simp only [answerCardStep] <;>
    simp [awardXPW_session]

theorem summaries_answerCardStep (b : Bool) (w : World) :
    summaries (answerCardStep b w).2 = [] := by
  cases b <;> simp only [answerCardStep]
  · simp [summaries]
  · simp [summaries_awardXPW]

theorem xpGains_answerCardStep (b : Bool) (w : World) :
    xpGains (answerCardStep b w).2 =
      if b then
        [(xpValue ((w.session.cards.getD w.session.currentCard defaultCard).difficulty),
          "Correct answer!")]
      else [] := by
  cases b <;> simp only [answerCardStep]
  · simp [xpGains]
  · simp [xpGains_awardXPW]

theorem answerCardStep_stats (b : Bool) (w : World) :
    (answerCardStep b w).1.stats = w.stats ∨
      ∃ a r w1, (answerCardStep b w).1.stats = (awardXPW a r w1).1.stats ∧ w1.stats = w.stats := by
  cases b <;> simp only [answerCardStep]
  · exact Or.inl rfl
  · exact Or.inr ⟨_, _, _, rfl, rfl⟩

theorem endStudySession_session (now : Nat) (w : World) :
    (endStudySession now w).1.session = idleSession := rfl

theorem endStudySession_pauseBtn (now : Nat) (w : World) :
    (endStudySession now w).1.pauseBtnShowsPause = true := rfl

theorem endStudySession_cardsStudied (now : Nat) (w : World) :
    (endStudySession now w).2.1.cardsStudied = w.session.cardsStudied := rfl

theorem endStudySession_duration (now : Nat) (w : World) :
    (endStudySession now w).2.1.durationSeconds = (now - w.session.startTime.getD 0) / 1000 := rfl

theorem summaries_bonusAward (c : Prop) [Decidable c] (a : Nat) (r : String) (w : World) :
    summaries (if c then awardXPW a r w else (w, [])).2 = [] := by
  split
  · exact summaries_awardXPW a r w
  · rfl

theorem summaries_endStudySession (now : Nat) (w : World) :
    summaries (endStudySession now w).2.2 = [(endStudySession now w).2.1] := by
  show summaries ((if 0 < _ then awardXPW _ "Study session completed!" w else (w, [])).2 ++
    [Event.sessionEnded _]) = _
  rw [summaries_append, summaries_bonusAward]
  rfl

theorem answerCard_not_end (b : Bool) (t : Nat) (w : World)
    (h : ¬ (answerCardStep b w).1.session.cards.length ≤ (answerCardStep b w).1.session.currentCard) :
    answerCard b t w = answerCardStep b w := by
  simp only [answerCard]
  rw [if_neg h]

theorem answerCard_end (b : Bool) (t : Nat) (w : World)
    (h : (answerCardStep b w).1.session.cards.length ≤ (answerCardStep b w).1.session.currentCard) :
    answerCard b t w =
      ((endStudySession (t + 1000) (answerCardStep b w).1).1,
        (answerCardStep b w).2 ++ (endStudySession (t + 1000) (answerCardStep b w).1).2.2) := by
  simp only [answerCard]
  rw [if_pos h]

theorem answerCardStep_mid (deck : List Card) (t0 k c : Nat) (b : Bool) (w : World)
    (hw : w.session = midSession deck t0 k c) :
    (answerCardStep b w).1.session = midSession deck t0 (k + 1) (c + if b then 1 else 0) := by
  rw [answerCardStep_session, hw]
  cases b <;> rfl

theorem answerCard_mid_step (deck : List Card) (t0 k c : Nat) (b : Bool) (t : Nat) (w : World)
    (hw : w.session = midSession deck t0 k c) (h : k + 1 < deck.length) :
    (answerCard b t w).1.session = midSession deck t0 (k + 1) (c + if b then 1 else 0) ∧
      summaries (answerCard b t w).2 = [] := by
  have hs2 := answerCardStep_mid deck t0 k c b w hw
  have hc : ¬ (answerCardStep b w).1.session.cards.length ≤ (answerCardStep b w).1.session.currentCard := by
    rw [hs2]
    show ¬ deck.length ≤ k + 1
    omega
  rw [answerCard_not_end b t w hc]
  exact ⟨hs2, summaries_answerCardStep b w⟩

theorem answerCard_mid_last (deck : List Card) (t0 k c : Nat) (b : Bool) (t : Nat) (w : World)
    (hw : w.session = midSession deck t0 k c) (h : k + 1 = deck.length) :
    (answerCard b t w).1.session = idleSession ∧
      ∃ s, summaries (answerCard b t w).2 = [s] ∧ s.cardsStudied = deck.length := by
  have hs2 := answerCardStep_mid deck t0 k c b w hw
  have hc : (answerCardStep b w).1.session.cards.length ≤ (answerCardStep b w).1.session.currentCard := by
    rw [hs2]
    show deck.length ≤ k + 1
    omega
  rw [answerCard_end b t w hc]
  refine ⟨endStudySession_session _ _, (endStudySession (t + 1000) (answerCardStep b w).1).2.1, ?_, ?_⟩
  · rw [summaries_append, summaries_answerCardStep, summaries_endStudySession]
    rfl
  · rw [endStudySession_cardsStudied, hs2]
    exact h

theorem runAnswers_complete (deck : List Card) (t0 : Nat) :
    ∀ (answers : List (Bool × Nat)) (k c : Nat) (w : World),
      w.session = midSession deck t0 k c →
      answers.length + k = deck.length →
      answers ≠ [] →
      (runAnswers answers w).1.session = idleSession ∧
        ∃ s, summaries (runAnswers answers w).2 = [s] ∧ s.cardsStudied = deck.length := by
  intro answers
  induction answers with
  | nil =>
    intro k c w hw hlen hne
    exact absurd rfl hne
  | cons a rest ih =>
    intro k c w hw hlen hne
    obtain ⟨b, t⟩ := a
    by_cases hrest : rest = []
    · subst hrest
      have hk : k + 1 = deck.length := by
        simp only [List.length_cons, List.length_nil] at hlen
        omega
      have hlast := answerCard_mid_last deck t0 k c b t w hw hk
      obtain ⟨s, hs1, hs2⟩ := hlast.2
      refine ⟨?_, s, ?_, hs2⟩
      · show (runAnswers [] (answerCard b t w).1).1.session = idleSession
        rw [show runAnswers [] (answerCard b t w).1 = ((answerCard b t w).1, []) from rfl]
        exact hlast.1
      · show summaries ((answerCard b t w).2 ++ (runAnswers [] (answerCard b t w).1).2) = [s]
        rw [show runAnswers [] (answerCard b t w).1 = ((answerCard b t w).1, []) from rfl]
        rw [List.append_nil]
        exact hs1
    · have hk : k + 1 < deck.length := by
        have h1 : rest.length ≠ 0 := fun h0 => hrest (List.length_eq_zero.mp h0)
        have h2 : rest.length + 1 + k = deck.length := by simpa using hlen
        omega
      have hstep := answerCard_mid_step deck t0 k c b t w hw hk
      have hrec := ih (k + 1) (c + if b then 1 else 0) (answerCard b t w).1 hstep.1
        (by
          have h2 : rest.length + 1 + k = deck.length := by simpa using hlen
          omega)
        hrest
      refine ⟨?_, ?_⟩
      · show (runAnswers rest (answerCard b t w).1).1.session = idleSession
        exact hrec.1
      · obtain ⟨s, hs1, hs2⟩ := hrec.2
        refine ⟨s, ?_, hs2⟩
        show summaries ((answerCard b t w).2 ++ (runAnswers rest (answerCard b t w).1).2) = [s]
        rw [summaries_append, hstep.2, hs1]
        rfl

/-! ### The level invariant across the engine operations -/

theorem pauseStudySession_stats (w : World) : (pauseStudySession w).stats = w.stats := by
  simp only [pauseStudySession]
  split <;> rfl

theorem startSessionWithDeck_stats (d : List Card) (now : Nat) (w : World) :
    (startSessionWithDeck d now w).1.stats = w.stats := by
  simp only [startSessionWithDeck]
  split <;> rfl

theorem bonusAward_levelInvariant (c : Prop) [Decidable c] (a : Nat) (r : String) (w : World)
    (h : levelInvariant w.stats) :
    levelInvariant (if c then awardXPW a r w else (w, [])).1.stats := by
  split
  · exact awardXPW_levelInvariant a r w h
  · exact h

theorem endStudySession_levelInvariant (now : Nat) (w : World)
    (h : levelInvariant w.stats) : levelInvariant (endStudySession now w).1.stats :=
  bonusAward_levelInvariant _ _ "Study session completed!" w h

theorem answerCardStep_levelInvariant (b : Bool) (w : World)
    (h : levelInvariant w.stats) : levelInvariant (answerCardStep b w).1.stats := by
  cases b
  · exact h
  · exact awardXPW_levelInvariant _ "Correct answer!" _ h

theorem answerCard_levelInvariant (b : Bool) (now : Nat) (w : World)
    (h : levelInvariant w.stats) : levelInvariant (answerCard b now w).1.stats := by
  simp only [answerCard]
  split
  · exact endStudySession_levelInvariant _ _ (answerCardStep_levelInvariant b w h)
  · exact answerCardStep_levelInvariant b w h


theorem pauseStudySession_session (w : World) :
    (pauseStudySession w).session = { w.session with timerRunning := !w.pauseBtnShowsPause } := by
  simp only [pauseStudySession]
  split
  · rename_i h
    rw [h]
    rfl
  · rename_i h
    rw [Bool.not_eq_true] at h
    rw [h]
    rfl

/-! ### Claims -/

/-- Claim C1: for every UserProgress state satisfying
`level = floor(experience / 100) + 1` and every non-negative award amount
(amounts are `Nat` here, matching the non-negative values the engine
passes), `awardXP` re-establishes `level = floor(experience / 100) + 1`;
and no engine operation (`answerCard`, `endStudySession`,
`pauseStudySession`, `startSessionWithDeck`) stores a level violating the
formula. -/
theorem C1_level_is_derived_from_xp :
    (∀ (amount : Nat) (reason : String) (totalCards : Nat) (st : UserStats),
      levelInvariant st → levelInvariant (awardXP amount reason totalCards st).1) ∧
    (∀ (b : Bool) (now : Nat) (w : World),
      levelInvariant w.stats → levelInvariant (answerCard b now w).1.stats) ∧
    (∀ (now : Nat) (w : World),
      levelInvariant w.stats → levelInvariant (endStudySession now w).1.stats) ∧
    (∀ (w : World), levelInvariant w.stats → levelInvariant (pauseStudySession w).stats) ∧
    (∀ (deck : List Card) (now : Nat) (w : World),
      levelInvariant w.stats → levelInvariant (startSessionWithDeck deck now w).1.stats) := by
  refine ⟨awardXP_levelInvariant, answerCard_levelInvariant, endStudySession_levelInvariant,
    ?_, ?_⟩
  · intro w h
    rw [pauseStudySession_stats]
    exact h
  · intro deck now w h
    rw [startSessionWithDeck_stats]
    exact h

/-- Witness for C1 at a concrete state: fresh stats satisfy the level
formula and still do after a 250-XP award. -/
theorem C1_witness :
    levelInvariant baseStats ∧ levelInvariant (awardXP 250 "Correct answer!" 0 baseStats).1 :=
  ⟨rfl, C1_level_is_derived_from_xp.1 250 "Correct answer!" 0 baseStats rfl⟩

/-- Claim C2 counterexample: pausing does not freeze the accrual of
elapsed time. A session started at 1000000 shows 10 s on the tick at
1010000; it is paused there and resumed at 1100000, yet the next tick at
1101000 shows 101 s and ending at 1101000 reports a 101-second duration
— not the 11 s of active time the claim requires (10 s before the pause
plus 1 s after the resume), so `durationSeconds` does not exclude time
spent paused. -/
theorem C2_counterexample :
    updateSessionTimer 1010000 worldOneCard = some 10 ∧
    updateSessionTimer 1101000 worldOneCardResumed = some 101 ∧
    (endStudySession 1101000 worldOneCardResumed).2.1.durationSeconds = 101 ∧
    ¬ (endStudySession 1101000 worldOneCardResumed).2.1.durationSeconds = 11 := by
  decide

/-- Claim C2 (amended): `pauseStudySession` only toggles the interval
timer (and the button label), leaving `startTime` and every counter
unchanged; elapsed time is always recomputed as
`floor((now - startTimestamp) / 1000)` with no pause offset, both on a
display tick and in the summary `durationSeconds`, so after a resume the
elapsed value and the reported duration include time spent paused. -/
theorem C2_elapsed_ignores_pauses (w : World) (now t0 : Nat)
    (hstart : w.session.startTime = some t0) :
    (endStudySession now w).2.1.durationSeconds = (now - t0) / 1000 ∧
    (w.session.active = true → t0 ≠ 0 →
      updateSessionTimer now w = some ((now - t0) / 1000)) ∧
    (pauseStudySession w).session.startTime = w.session.startTime ∧
    (pauseStudySession w).session.active = w.session.active ∧
    (pauseStudySession w).session.currentCard = w.session.currentCard ∧
    (pauseStudySession w).session.cardsStudied = w.session.cardsStudied ∧
    (pauseStudySession w).session.correctAnswers = w.session.correctAnswers ∧
    (pauseStudySession w).session.cards = w.session.cards ∧
    (pauseStudySession w).session.timerRunning = !w.pauseBtnShowsPause := by
  refine ⟨?_, ?_, ?_, ?_, ?_, ?_, ?_, ?_, ?_⟩
  · rw [endStudySession_duration, hstart]
    rfl
  · intro ha h0
    simp [updateSessionTimer, hstart, ha, h0]
  all_goals rw [pauseStudySession_session]

/-- Witness for C2 (amended) at a concrete state. -/
theorem C2_witness :
    worldOneCard.session.startTime = some 1000000 ∧
    (endStudySession 1101000 worldOneCard).2.1.durationSeconds = (1101000 - 1000000) / 1000 :=
  ⟨rfl, (C2_elapsed_ignores_pauses worldOneCard 1101000 1000000 rfl).1⟩

/-- Claim C3: from a freshly started session over a non-empty deck,
after exactly `deck.length` calls to `answerCard` (any mix of correct
and incorrect, at any times) the session has been reset to the idle
instance and exactly one session summary was emitted — produced by the
automatic end dispatched from the last `answerCard`, with no external
`endStudySession` call in the run — reporting
`cardsStudied = deck.length`. -/
theorem C3_answers_auto_end (deck : List Card) (t0 : Nat) (answers : List (Bool × Nat))
    (w : World) (hdeck : deck ≠ []) (hlen : answers.length = deck.length)
    (hw : w.session = startedSession deck t0) :
    (runAnswers answers w).1.session = idleSession ∧
      ∃ s, summaries (runAnswers answers w).2 = [s] ∧ s.cardsStudied = deck.length := by
  have hne : answers ≠ [] := by
    intro h0
    subst h0
    simp only [List.length_nil] at hlen
    exact hdeck (List.length_eq_zero.mp hlen.symm)
  exact runAnswers_complete deck t0 answers 0 0 w hw (by omega) hne

/-- Witness for C3: a three-card deck answered correct, incorrect,
correct ends automatically with `cardsStudied = 3`. -/
theorem C3_witness :
    (runAnswers [(true, 1001000), (false, 1002000), (true, 1003000)] worldThreeCards).1.session
        = idleSession ∧
      ∃ s, summaries
          (runAnswers [(true, 1001000), (false, 1002000), (true, 1003000)] worldThreeCards).2
          = [s] ∧ s.cardsStudied = ([cardA, cardB, cardC] : List Card).length :=
  C3_answers_auto_end [cardA, cardB, cardC] 1000000
    [(true, 1001000), (false, 1002000), (true, 1003000)] worldThreeCards
    (by simp) rfl rfl

/-- Claim C4: whenever a session ends, the summary accuracy is
`round(100 * correctCount / cardsAnswered)` (round half up, the value of
`Math.round` on the exact quotient) when `cardsAnswered > 0` and 0 when
`cardsAnswered = 0`; in particular 4 cards with 3 correct give 75. -/
theorem C4_accuracy_rounding :
    (∀ (now : Nat) (w : World), 0 < w.session.cardsStudied →
      (endStudySession now w).2.1.accuracyPercent =
        roundHalfUp (100 * w.session.correctAnswers) w.session.cardsStudied) ∧
    (∀ (now : Nat) (w : World), w.session.cardsStudied = 0 →
      (endStudySession now w).2.1.accuracyPercent = 0) ∧
    (∀ (now : Nat) (w : World), w.session.cardsStudied = 4 → w.session.correctAnswers = 3 →
      (endStudySession now w).2.1.accuracyPercent = 75) := by
  refine ⟨?_, ?_, ?_⟩
  · intro now w h
    show (if 0 < w.session.cardsStudied then
        (2 * (100 * w.session.correctAnswers) + w.session.cardsStudied) /
          (2 * w.session.cardsStudied)
      else 0) = roundHalfUp (100 * w.session.correctAnswers) w.session.cardsStudied
    rw [if_pos h]
    rfl
  · intro now w h
    show (if 0 < w.session.cardsStudied then
        (2 * (100 * w.session.correctAnswers) + w.session.cardsStudied) /
          (2 * w.session.cardsStudied)
      else 0) = 0
    rw [if_neg (by omega)]
  · intro now w h4 h3
    show (if 0 < w.session.cardsStudied then
        (2 * (100 * w.session.correctAnswers) + w.session.cardsStudied) /
          (2 * w.session.cardsStudied)
      else 0) = 75
    rw [h4, h3]
    decide

/-- Witness for C4: a concrete ended session with 4 answered, 3 correct
reports 75 percent accuracy. -/
theorem C4_witness :
    worldFourAnswered.session.cardsStudied = 4 ∧
    worldFourAnswered.session.correctAnswers = 3 ∧
    (endStudySession 1500000 worldFourAnswered).2.1.accuracyPercent = 75 :=
  ⟨rfl, rfl, C4_accuracy_rounding.2.2 1500000 worldFourAnswered rfl rfl⟩

theorem xpGains_bonusAward (c : Prop) [Decidable c] (a : Nat) (r : String) (w : World) :
    xpGains (if c then awardXPW a r w else (w, [])).2 = if c then [(a, r)] else [] := by
  by_cases h : c
  · rw [if_pos h, if_pos h, xpGains_awardXPW]
  · rw [if_neg h, if_neg h]
    rfl

/-- Claim C5: at session end the bonus XP is `2 * cardsAnswered`, plus 10
when `accuracyPercent ≥ 80`, plus 5 when `durationSeconds ≥ 600`; it is
granted through a single additional XP-award call exactly when the bonus
is positive; and the spec example (5 answered, accuracy 80, duration
700) yields a bonus of 25. -/
theorem C5_bonus_xp :
    (∀ (now : Nat) (w : World),
      (endStudySession now w).2.1.sessionXP =
        2 * w.session.cardsStudied
          + (if 80 ≤ (endStudySession now w).2.1.accuracyPercent then 10 else 0)
          + (if 600 ≤ (endStudySession now w).2.1.durationSeconds then 5 else 0)) ∧
    (∀ (now : Nat) (w : World),
      xpGains (endStudySession now w).2.2 =
        if 0 < (endStudySession now w).2.1.sessionXP
        then [((endStudySession now w).2.1.sessionXP, "Study session completed!")]
        else []) ∧
    (endStudySession 1700000 worldFiveAnswered).2.1.cardsStudied = 5 ∧
    (endStudySession 1700000 worldFiveAnswered).2.1.accuracyPercent = 80 ∧
    (endStudySession 1700000 worldFiveAnswered).2.1.durationSeconds = 700 ∧
    (endStudySession 1700000 worldFiveAnswered).2.1.sessionXP = 25 := by
  refine ⟨?_, ?_, by decide, by decide, by decide, by decide⟩
  · intro now w
    simp only [endStudySession]
    split_ifs <;> omega
  · intro now w
    show xpGains ((if 0 < _ then awardXPW _ "Study session completed!" w else (w, [])).2 ++
      [Event.sessionEnded _]) = _
    rw [xpGains_append, xpGains_bonusAward]
    show (if _ then _ else []) ++ ([] : List (Nat × String)) = _
    rw [List.append_nil]
    rfl

/-- Claim C6: `answerCard` (its counter-and-award stage, before the
end-of-deck dispatch) increments `cardsStudied` by exactly 1 and
advances the position by exactly 1; a correct answer additionally
increments `correctAnswers` by 1 and awards exactly the current card's
difficulty value (easy 3, medium 5, hard 8) with reason
Correct answer!, while an incorrect answer leaves `correctAnswers`
unchanged and awards nothing. -/
theorem C6_answer_effects :
    (∀ (b : Bool) (w : World),
      w.session.active = true →
      w.session.currentCard < w.session.cards.length →
      (answerCardStep b w).1.session.cardsStudied = w.session.cardsStudied + 1 ∧
      (answerCardStep b w).1.session.currentCard = w.session.currentCard + 1 ∧
      (answerCardStep b w).1.session.correctAnswers =
        w.session.correctAnswers + (if b then 1 else 0) ∧
      xpGains (answerCardStep b w).2 =
        if b then
          [(xpValue ((w.session.cards.getD w.session.currentCard defaultCard).difficulty),
            "Correct answer!")]
        else []) ∧
    xpValue "easy" = 3 ∧ xpValue "medium" = 5 ∧ xpValue "hard" = 8 := by
  refine ⟨?_, rfl, rfl, rfl⟩
  intro b w ha hc
  refine ⟨?_, ?_, ?_, xpGains_answerCardStep b w⟩
  · rw [answerCardStep_session]
  · rw [answerCardStep_session]
  · rw [answerCardStep_session]

/-- Witness for C6: answering the first card of the three-card session
correctly awards 3 XP (cardA is easy) and bumps the counters. -/
theorem C6_witness :
    worldThreeCards.session.active = true ∧
    worldThreeCards.session.currentCard < worldThreeCards.session.cards.length ∧
    (answerCardStep true worldThreeCards).1.session.cardsStudied = 1 ∧
    xpGains (answerCardStep true worldThreeCards).2 = [(3, "Correct answer!")] := by
  have h := C6_answer_effects.1 true worldThreeCards rfl (by decide)
  refine ⟨rfl, by decide, ?_, ?_⟩
  · rw [h.1]
    rfl
  · rw [h.2.2.2]
    decide

/-- Claim C7: the start transition given a deck with zero cards fails
with the empty-deck error and returns before touching anything: the
world (session status, timer flag, every counter) is returned
unchanged. In the full `startStudySession` this guard sits after the
sample-data fallback, which is itself never empty. -/
theorem C7_empty_deck_start (now : Nat) (w : World) :
    startSessionWithDeck [] now w = (w, StartResult.emptyDeck) ∧
    (startSessionWithDeck [] now w).1.session = w.session :=
  ⟨rfl, rfl⟩

/-- Claim C8 evaluation at the failing input: calling `endStudySession`
while the session is idle (`startTime` null, so the JS subtraction sees
0) at `Date.now() = 1000000` computes a 1000-second duration, takes the
10-minute bonus branch, and awards 5 XP with reason
Study session completed! — mutating UserProgress — whereas
`pauseStudySession` while idle only flips the button label and is
otherwise a no-op. -/
theorem C8_end_while_idle_awards_xp :
    worldIdle.session = idleSession ∧
    (endStudySession 1000000 worldIdle).2.1.durationSeconds = 1000 ∧
    xpGains (endStudySession 1000000 worldIdle).2.2 = [(5, "Study session completed!")] ∧
    (endStudySession 1000000 worldIdle).1.stats.xp = worldIdle.stats.xp + 5 ∧
    pauseStudySession worldIdle = { worldIdle with pauseBtnShowsPause := false } := by
  decide

/-- Claim C9: `awardXP` emits a level-up event iff the recomputed level
`floor((xp + amount) / 100) + 1` exceeds the stored level, always at
most one event, carrying only the final resulting level; a 250-XP award
from level 1 with 0 XP emits the single event with level 3. -/
theorem C9_single_levelup_event :
    (∀ (amount : Nat) (reason : String) (totalCards : Nat) (st : UserStats),
      levelUps (awardXP amount reason totalCards st).2 =
        if st.level < (st.xp + amount) / 100 + 1 then [(st.xp + amount) / 100 + 1] else []) ∧
    (∀ (amount : Nat) (reason : String) (totalCards : Nat) (st : UserStats),
      (levelUps (awardXP amount reason totalCards st).2).length ≤ 1) ∧
    levelUps (awardXP 250 "Correct answer!" 0 baseStats).2 = [3] := by
  refine ⟨levelUps_awardXP, ?_, by decide⟩
  intro amount reason totalCards st
  rw [levelUps_awardXP]
  split <;> simp

/-- Claim C10: with no saved and no generated cards, the assembled deck
is exactly the built-in sample categories flattened in the fixed order
math, english, spanish, german, science, history, each category keeping
its internal entry order (no shuffling, no randomness), and no card
occurs twice in it. -/
theorem C10_fallback_deck_order :
    assembleDeck [] [] = fallbackDeckSpec ∧ (assembleDeck [] []).Nodup := by
  constructor
  · rfl
  · decide
